import Mathlib

/-!
# Verification of the retirement-planner core

Shallow embedding of `retirement_planner/taxes.py` and
`retirement_planner/calculations.py`.  Money amounts and rates are modelled
as exact rationals (`ℚ`), ages as integers (`ℤ`).  Python's fallible
behaviour (a `TypeError` raised by a dataclass constructor receiving an
unexpected keyword argument) is modelled with `Except String`.
-/

namespace RetirementPlanner

/-! ## taxes.py -/

/-- Type `OrdinaryBracket = Tuple[float, float]` — `(threshold, rate)`. -/
abbrev OrdinaryBracket := ℚ × ℚ

/-- Table `FEDERAL_BRACKETS_SINGLE` (taxes.py lines 10–18). -/
def FEDERAL_BRACKETS_SINGLE : List OrdinaryBracket :=
  [(0, 10/100), (11600, 12/100), (47150, 22/100), (100525, 24/100),
   (191950, 32/100), (243725, 35/100), (609350, 37/100)]

/-- Table `FEDERAL_BRACKETS_MARRIED` (taxes.py lines 20–28). -/
def FEDERAL_BRACKETS_MARRIED : List OrdinaryBracket :=
  [(0, 10/100), (23200, 12/100), (94300, 22/100), (201050, 24/100),
   (383900, 32/100), (487450, 35/100), (731200, 37/100)]

/-- The `STANDARD_DEDUCTION` dict lookup with default `STANDARD_DEDUCTION["single"]`
(taxes.py lines 30–33 together with the `.get` at line 82). -/
def standardDeduction (filing_status : String) : ℚ :=
  if filing_status = "single" then 14600
  else if filing_status = "married" then 29200
  else 14600

/-- The `TaxInput` dataclass (taxes.py lines 36–41).  Note: the dataclass
declares exactly these four fields; it has no `social_security_income`
field. -/
structure TaxInput where
  filing_status : String
  state_rate : ℚ
  ordinary_income : ℚ
  capital_gains_income : ℚ
deriving DecidableEq

/-- The field names of the `TaxInput` dataclass, i.e. the keyword arguments
its generated `__init__` accepts (taxes.py lines 36–41). -/
def TaxInput.fieldNames : List String :=
  ["filing_status", "state_rate", "ordinary_income", "capital_gains_income"]

/-- The `TaxResult` dataclass (taxes.py lines 44–51). -/
structure TaxResult where
  total_tax : ℚ
  effective_rate : ℚ
  federal_tax : ℚ
  state_tax : ℚ
  ordinary_income_taxed : ℚ
  capital_gains_taxed : ℚ
deriving DecidableEq

/-- Function `_get_brackets` (taxes.py lines 54–57). -/
def getBrackets (filing_status : String) : List OrdinaryBracket :=
  if filing_status = "married" then FEDERAL_BRACKETS_MARRIED
  else FEDERAL_BRACKETS_SINGLE

/-- The `amount_in_bracket` value for the bracket with threshold `threshold` followed
by `rest` (taxes.py lines 66–70): bounded above by the next bracket's
threshold when one exists, open-ended for the last bracket. -/
def bracketAmount (taxable_income threshold : ℚ) (rest : List OrdinaryBracket) : ℚ :=
  match rest with
  | [] => max 0 (taxable_income - threshold)
  | (next_threshold, _) :: _ => max 0 (min taxable_income next_threshold - threshold)

/-- The loop body of `_apply_ordinary_brackets` (taxes.py lines 64–75):
for each bracket, the amount in the bracket is `bracketAmount`; amounts
`≤ 0` are skipped, the rest contribute amount × rate. -/
def applyBracketsAux (taxable_income : ℚ) : List OrdinaryBracket → ℚ
  | [] => 0
  | (threshold, rate) :: rest =>
      let amount_in_bracket := bracketAmount taxable_income threshold rest
      (if amount_in_bracket ≤ 0 then 0 else amount_in_bracket * rate)
        + applyBracketsAux taxable_income rest

/-- Function `_apply_ordinary_brackets` (taxes.py lines 60–75), including the early
return `0.0` for `taxable_income <= 0`. -/
def applyOrdinaryBrackets (taxable_income : ℚ) (brackets : List OrdinaryBracket) : ℚ :=
  if taxable_income ≤ 0 then 0 else applyBracketsAux taxable_income brackets

/-- The filing-status normalization at the top of `compute_taxes`
(taxes.py line 79): anything other than `"single"` or `"married"` falls
back to `"single"`. -/
def normalizeFilingStatus (s : String) : String :=
  if s = "single" ∨ s = "married" then s else "single"

/-- Function `compute_taxes` (taxes.py lines 78–106). -/
def compute_taxes (ti : TaxInput) : TaxResult :=
  let filing_status := normalizeFilingStatus ti.filing_status
  let brackets := getBrackets filing_status
  let std_deduction := standardDeduction filing_status
  let taxable_ordinary := max 0 (ti.ordinary_income - std_deduction)
  let federal_ordinary_tax := applyOrdinaryBrackets taxable_ordinary brackets
  let capital_gains_rate : ℚ := 15/100
  let federal_capital_tax := max 0 ti.capital_gains_income * capital_gains_rate
  let federal_tax := federal_ordinary_tax + federal_capital_tax
  let total_income := ti.ordinary_income + ti.capital_gains_income
  let state_tax := max 0 total_income * max 0 ti.state_rate
  let total_tax := federal_tax + state_tax
  let effective_rate := if 0 < total_income then total_tax / total_income else 0
  { total_tax := total_tax
    effective_rate := effective_rate
    federal_tax := federal_tax
    state_tax := state_tax
    ordinary_income_taxed := taxable_ordinary
    capital_gains_taxed := ti.capital_gains_income }

/-- The federal capital-gains component of `compute_taxes`
(taxes.py lines 88–89): a flat 15% on the non-negative part of the
capital-gains income. -/
def federalCapitalTax (ti : TaxInput) : ℚ :=
  max 0 ti.capital_gains_income * (15/100)

/-- Function `estimate_brokerage_gains` at its default `gain_fraction = 0.5`
(taxes.py lines 109–113): half of a positive brokerage withdrawal is
treated as taxable capital gain. -/
def estimate_brokerage_gains (withdrawal : ℚ) : ℚ :=
  if withdrawal ≤ 0 then 0
  else
    let gain_fraction := max 0 (min 1 (1/2 : ℚ))
    withdrawal * gain_fraction

/-- Written from the spec's wording of the progressive bracket algorithm,
for comparison with `applyBracketsAux`: for each bracket `i` with threshold
`t_i` and rate `r_i`, the amount taxed at `r_i` is
`max 0 (min taxable_income t_(i+1) - t_i)` for all but the last bracket and
`max 0 (taxable_income - t_i)` for the last, and the total is the sum of
the per-bracket products amount × rate. -/
def specBracketSum (taxable_income : ℚ) : List OrdinaryBracket → ℚ
  | [] => 0
  | (threshold, rate) :: rest =>
      bracketAmount taxable_income threshold rest * rate
        + specBracketSum taxable_income rest

/-! ## calculations.py -/

/-- Type `WithdrawalOrder = Literal["brokerage_first", "tax_deferred_first"]`
(calculations.py line 12). -/
inductive WithdrawalOrder where
  | brokerage_first
  | tax_deferred_first
deriving DecidableEq

/-- The `ProjectionConfig` dataclass (calculations.py lines 15–34).  Note:
the dataclass declares exactly these fields; in particular it has no
`social_security_start_age` field. -/
structure ProjectionConfig where
  current_age : ℤ
  retire_age : ℤ
  end_age : ℤ
  current_401k_balance : ℚ
  current_brokerage_balance : ℚ
  annual_401k_contribution : ℚ
  annual_brokerage_contribution : ℚ
  real_return_401k : ℚ
  real_return_brokerage : ℚ
  swr : ℚ
  filing_status : String
  state_tax_rate : ℚ
  withdrawal_order : WithdrawalOrder
deriving DecidableEq

/-- One row of the DataFrame built by `run_projection`
(calculations.py lines 123–153). -/
structure YearRecord where
  age : ℤ
  year_index : ℤ
  is_retirement_year : Bool
  balance_401k : ℚ
  balance_brokerage : ℚ
  total_balance : ℚ
  withdrawal_total : ℚ
  withdrawal_401k : ℚ
  withdrawal_brokerage : ℚ
  social_security_income : ℚ
  tax_total : ℚ
  net_income_after_tax : ℚ
  tax_effective_rate : ℚ
  federal_tax : ℚ
  state_tax : ℚ
deriving DecidableEq

/-- Function `_year_sequence` (calculations.py lines 37–38):
`list(range(current_age, end_age + 1))`. -/
def yearSequence (config : ProjectionConfig) : List ℤ :=
  (List.range (config.end_age + 1 - config.current_age).toNat).map
    (fun (i : ℕ) => config.current_age + (i : ℤ))

/-- Constant `SOCIAL_SECURITY_MAX_AGE_62` (calculations.py line 71). -/
def SOCIAL_SECURITY_MAX_AGE_62 : ℚ := 41000

/-- Constant `SOCIAL_SECURITY_COLA` (calculations.py line 72). -/
def SOCIAL_SECURITY_COLA : ℚ := 25/1000

/-- The split of `withdrawal_total` across the two accounts
(calculations.py lines 89–94), returning `(from_401k, from_brokerage)`. -/
def withdrawalSplit (order : WithdrawalOrder)
    (withdrawal_total post_growth_401k post_growth_brokerage : ℚ) : ℚ × ℚ :=
  match order with
  | .brokerage_first =>
      let from_brokerage := min withdrawal_total post_growth_brokerage
      (withdrawal_total - from_brokerage, from_brokerage)
  | .tax_deferred_first =>
      let from_401k := min withdrawal_total post_growth_401k
      (from_401k, withdrawal_total - from_401k)

/-- The arithmetic of one iteration of the `run_projection` loop
(calculations.py lines 50–100): contribution, growth, Social Security,
and the withdrawal/balance update of retirement years.  `b4` and `bb` are
the running `balance_401k` and `balance_brokerage` entering the year. -/
structure YearCalc where
  post_growth_401k : ℚ
  post_growth_brokerage : ℚ
  withdrawal_total : ℚ
  withdrawal_401k : ℚ
  withdrawal_brokerage : ℚ
  social_security_income : ℚ
  new_balance_401k : ℚ
  new_balance_brokerage : ℚ
deriving DecidableEq

/-- Computes the per-year quantities of the `run_projection` loop body
(calculations.py lines 50–100, 112–114). -/
def yearCalc (config : ProjectionConfig) (age : ℤ) (b4 bb : ℚ) : YearCalc :=
  let pre_growth_401k :=
    if config.retire_age ≤ age then b4 else b4 + config.annual_401k_contribution
  let pre_growth_brokerage :=
    if config.retire_age ≤ age then bb else bb + config.annual_brokerage_contribution
  let post_growth_401k := pre_growth_401k * (1 + config.real_return_401k)
  let post_growth_brokerage := pre_growth_brokerage * (1 + config.real_return_brokerage)
  let social_security_income : ℚ :=
    if config.retire_age ≤ age ∧ 62 ≤ age then
      SOCIAL_SECURITY_MAX_AGE_62 * (1 + SOCIAL_SECURITY_COLA) ^ (age - 62).toNat
    else 0
  if config.retire_age ≤ age then
    let withdrawal_total := (post_growth_401k + post_growth_brokerage) * config.swr
    let split := withdrawalSplit config.withdrawal_order withdrawal_total
      post_growth_401k post_growth_brokerage
    { post_growth_401k := post_growth_401k
      post_growth_brokerage := post_growth_brokerage
      withdrawal_total := withdrawal_total
      withdrawal_401k := split.1
      withdrawal_brokerage := split.2
      social_security_income := social_security_income
      new_balance_401k := post_growth_401k - split.1
      new_balance_brokerage := post_growth_brokerage - split.2 }
  else
    { post_growth_401k := post_growth_401k
      post_growth_brokerage := post_growth_brokerage
      withdrawal_total := 0
      withdrawal_401k := 0
      withdrawal_brokerage := 0
      social_security_income := social_security_income
      new_balance_401k := post_growth_401k
      new_balance_brokerage := post_growth_brokerage }

/-- The keyword arguments passed at the `TaxInput(...)` construction site in
`run_projection` (calculations.py lines 104–110). -/
def taxInputCallKeywords : List String :=
  ["filing_status", "state_rate", "ordinary_income", "capital_gains_income",
   "social_security_income"]

/-- A call to a Python dataclass constructor succeeds exactly when every
keyword argument names a declared field; otherwise Python raises
`TypeError: __init__() got an unexpected keyword argument ...`. -/
def dataclassCallOk (fieldNames keywords : List String) : Bool :=
  keywords.all (fun k => fieldNames.contains k)

/-- One iteration of the `run_projection` loop (calculations.py lines
49–155): produces the emitted row and the updated running balances, or the
`TypeError` that the `TaxInput` construction at lines 104–110 raises
(it passes `social_security_income`, which the `TaxInput` dataclass does
not declare). -/
def yearStep (config : ProjectionConfig) (age : ℤ) (b4 bb : ℚ) :
    Except String (YearRecord × ℚ × ℚ) :=
  let c := yearCalc config age b4 bb
  if config.retire_age ≤ age then
    if dataclassCallOk TaxInput.fieldNames taxInputCallKeywords then
      let est_cap_gains := estimate_brokerage_gains c.withdrawal_brokerage
      let tax_input : TaxInput :=
        { filing_status := config.filing_status
          state_rate := config.state_tax_rate
          ordinary_income := c.withdrawal_401k
          capital_gains_income := est_cap_gains }
      let tax_result := compute_taxes tax_input
      let total_tax := tax_result.total_tax
      let total_income := c.withdrawal_total + c.social_security_income
      let net_income := total_income - total_tax
      .ok ({ age := age
             year_index := age - config.current_age
             is_retirement_year := true
             balance_401k := c.new_balance_401k
             balance_brokerage := c.new_balance_brokerage
             total_balance := c.new_balance_401k + c.new_balance_brokerage
             withdrawal_total := c.withdrawal_total
             withdrawal_401k := c.withdrawal_401k
             withdrawal_brokerage := c.withdrawal_brokerage
             social_security_income := c.social_security_income
             tax_total := total_tax
             net_income_after_tax := net_income
             tax_effective_rate := tax_result.effective_rate
             federal_tax := tax_result.federal_tax
             state_tax := tax_result.state_tax }, c.new_balance_401k, c.new_balance_brokerage)
    else
      .error "TypeError: TaxInput.__init__ got an unexpected keyword argument social_security_income"
  else
    let total_tax : ℚ := 0
    let total_income := c.withdrawal_total + c.social_security_income
    let net_income := total_income - total_tax
    .ok ({ age := age
           year_index := age - config.current_age
           is_retirement_year := false
           balance_401k := c.new_balance_401k
           balance_brokerage := c.new_balance_brokerage
           total_balance := c.new_balance_401k + c.new_balance_brokerage
           withdrawal_total := c.withdrawal_total
           withdrawal_401k := c.withdrawal_401k
           withdrawal_brokerage := c.withdrawal_brokerage
           social_security_income := c.social_security_income
           tax_total := total_tax
           net_income_after_tax := net_income
           tax_effective_rate := 0
           federal_tax := 0
           state_tax := 0 }, c.new_balance_401k, c.new_balance_brokerage)

/-- The `for age in years` loop of `run_projection` (calculations.py lines
49–155), threading the two running balances and collecting the rows; the
first raised `TypeError` aborts the whole call. -/
def runProjectionAux (config : ProjectionConfig) :
    List ℤ → ℚ → ℚ → Except String (List YearRecord)
  | [], _, _ => .ok []
  | age :: rest, b4, bb =>
      match yearStep config age b4 bb with
      | .error e => .error e
      | .ok (row, b4', bb') =>
          match runProjectionAux config rest b4' bb' with
          | .error e => .error e
          | .ok rows => .ok (row :: rows)

/-- Function `run_projection` (calculations.py lines 41–158): either the list of
rows of the returned DataFrame, or the `TypeError` raised on the first
retirement year. -/
def run_projection (config : ProjectionConfig) : Except String (List YearRecord) :=
  runProjectionAux config (yearSequence config)
    config.current_401k_balance config.current_brokerage_balance

/-! ## Concrete instances used in the development -/

/-- A well-formed configuration whose range contains retirement years
(ages 64–66, retiring at 65). -/
def cfgRetire65 : ProjectionConfig :=
  { current_age := 64, retire_age := 65, end_age := 66
    current_401k_balance := 100000, current_brokerage_balance := 0
    annual_401k_contribution := 0, annual_brokerage_contribution := 0
    real_return_401k := 0, real_return_brokerage := 0
    swr := 4/100, filing_status := "single", state_tax_rate := 0
    withdrawal_order := .tax_deferred_first }

/-- A well-formed single-year configuration that is already retired. -/
def cfgRetire70 : ProjectionConfig :=
  { current_age := 70, retire_age := 70, end_age := 70
    current_401k_balance := 500000, current_brokerage_balance := 250000
    annual_401k_contribution := 0, annual_brokerage_contribution := 0
    real_return_401k := 5/100, real_return_brokerage := 5/100
    swr := 4/100, filing_status := "single", state_tax_rate := 5/100
    withdrawal_order := .brokerage_first }

/-- A configuration whose simulated range (ages 30–31) lies entirely before
retirement at 33. -/
def cfgAccumulate : ProjectionConfig :=
  { current_age := 30, retire_age := 33, end_age := 31
    current_401k_balance := 1000, current_brokerage_balance := 500
    annual_401k_contribution := 100, annual_brokerage_contribution := 50
    real_return_401k := 5/100, real_return_brokerage := 5/100
    swr := 4/100, filing_status := "single", state_tax_rate := 5/100
    withdrawal_order := .brokerage_first }

/-- A tax input whose capital loss cancels its ordinary income, so that
total income is zero while ordinary income exceeds the standard
deduction. -/
def tiLossOffset : TaxInput :=
  { filing_status := "single", state_rate := 0
    ordinary_income := 20000, capital_gains_income := -20000 }

/-- The spec's worked bracket example: single filer, ordinary income
60000, no capital gains, no state tax. -/
def tiExample60000 : TaxInput :=
  { filing_status := "single", state_rate := 0
    ordinary_income := 60000, capital_gains_income := 0 }

/-! ## Helper lemmas: tax estimator -/

theorem bracketAmount_nonneg (t thr : ℚ) (rest : List OrdinaryBracket) :
    0 ≤ bracketAmount t thr rest := by
  cases rest with
  | nil => exact le_max_left _ _
  | cons b l =>
      obtain ⟨nt, nr⟩ := b
      exact le_max_left _ _

theorem bracketAmount_mono {t1 t2 : ℚ} (h : t1 ≤ t2) (thr : ℚ)
    (rest : List OrdinaryBracket) :
    bracketAmount t1 thr rest ≤ bracketAmount t2 thr rest := by
  cases rest with
  | nil => exact max_le_max le_rfl (by linarith)
  | cons b l =>
      obtain ⟨nt, nr⟩ := b
      exact max_le_max le_rfl (sub_le_sub_right (min_le_min h le_rfl) _)

theorem bracketAmount_of_nonpos {t : ℚ} (ht : t ≤ 0) {thr : ℚ} (hthr : 0 ≤ thr)
    (rest : List OrdinaryBracket) :
    bracketAmount t thr rest = 0 := by
  cases rest with
  | nil => exact max_eq_left (by linarith)
  | cons b l =>
      obtain ⟨nt, nr⟩ := b
      have : min t nt ≤ t := min_le_left _ _
      exact max_eq_left (by linarith)

theorem applyBracketsAux_eq_specBracketSum (t : ℚ) :
    ∀ bs : List OrdinaryBracket, applyBracketsAux t bs = specBracketSum t bs := by
  intro bs
  induction bs with
  | nil => rfl
  | cons b rest ih =>
      obtain ⟨thr, rate⟩ := b
      simp only [applyBracketsAux, specBracketSum, ih]
      by_cases h : bracketAmount t thr rest ≤ 0
      · have h0 : bracketAmount t thr rest = 0 :=
          le_antisymm h (bracketAmount_nonneg t thr rest)
        rw [if_pos h, h0, zero_mul]
      · rw [if_neg h]

theorem specBracketSum_nonneg (t : ℚ) :
    ∀ bs : List OrdinaryBracket, (∀ b ∈ bs, 0 ≤ b.2) → 0 ≤ specBracketSum t bs := by
  intro bs
  induction bs with
  | nil => intro _; exact le_refl 0
  | cons b rest ih =>
      intro hr
      obtain ⟨thr, rate⟩ := b
      have hrate : 0 ≤ rate := hr (thr, rate) (List.mem_cons_self _ _)
      have htail : 0 ≤ specBracketSum t rest :=
        ih (fun b hb => hr b (List.mem_cons_of_mem _ hb))
      have hhead : 0 ≤ bracketAmount t thr rest * rate :=
        mul_nonneg (bracketAmount_nonneg t thr rest) hrate
      simpa only [specBracketSum] using add_nonneg hhead htail

theorem specBracketSum_of_nonpos {t : ℚ} (ht : t ≤ 0) :
    ∀ bs : List OrdinaryBracket, (∀ b ∈ bs, 0 ≤ b.1) → specBracketSum t bs = 0 := by
  intro bs
  induction bs with
  | nil => intro _; rfl
  | cons b rest ih =>
      intro hthr
      obtain ⟨thr, rate⟩ := b
      have h1 : bracketAmount t thr rest = 0 :=
        bracketAmount_of_nonpos ht (hthr (thr, rate) (List.mem_cons_self _ _)) rest
      have h2 : specBracketSum t rest = 0 :=
        ih (fun b hb => hthr b (List.mem_cons_of_mem _ hb))
      simp only [specBracketSum, h1, h2, zero_mul, add_zero]

theorem specBracketSum_mono {t1 t2 : ℚ} (h : t1 ≤ t2) :
    ∀ bs : List OrdinaryBracket, (∀ b ∈ bs, 0 ≤ b.2) →
      specBracketSum t1 bs ≤ specBracketSum t2 bs := by
  intro bs
  induction bs with
  | nil => intro _; exact le_refl 0
  | cons b rest ih =>
      intro hr
      obtain ⟨thr, rate⟩ := b
      have hrate : 0 ≤ rate := hr (thr, rate) (List.mem_cons_self _ _)
      have htail := ih (fun b hb => hr b (List.mem_cons_of_mem _ hb))
      have hhead : bracketAmount t1 thr rest * rate ≤ bracketAmount t2 thr rest * rate :=
        mul_le_mul_of_nonneg_right (bracketAmount_mono h thr rest) hrate
      simpa only [specBracketSum] using add_le_add hhead htail

theorem applyOrdinaryBrackets_eq_spec (bs : List OrdinaryBracket)
    (hthr : ∀ b ∈ bs, 0 ≤ b.1) (t : ℚ) :
    applyOrdinaryBrackets t bs = specBracketSum t bs := by
  unfold applyOrdinaryBrackets
  by_cases ht : t ≤ 0
  · rw [if_pos ht, specBracketSum_of_nonpos ht bs hthr]
  · rw [if_neg ht, applyBracketsAux_eq_specBracketSum]

theorem applyOrdinaryBrackets_mono (bs : List OrdinaryBracket)
    (hr : ∀ b ∈ bs, 0 ≤ b.2) {t1 t2 : ℚ} (h : t1 ≤ t2) :
    applyOrdinaryBrackets t1 bs ≤ applyOrdinaryBrackets t2 bs := by
  unfold applyOrdinaryBrackets
  by_cases h1 : t1 ≤ 0
  · rw [if_pos h1]
    by_cases h2 : t2 ≤ 0
    · rw [if_pos h2]
    · rw [if_neg h2, applyBracketsAux_eq_specBracketSum]
      exact specBracketSum_nonneg t2 bs hr
  · have h2 : ¬ t2 ≤ 0 := fun hh => h1 (le_trans h hh)
    rw [if_neg h1, if_neg h2, applyBracketsAux_eq_specBracketSum,
      applyBracketsAux_eq_specBracketSum]
    exact specBracketSum_mono h bs hr

theorem getBrackets_rates_nonneg (s : String) : ∀ b ∈ getBrackets s, 0 ≤ b.2 := by
  unfold getBrackets
  split <;> intro b hb <;> fin_cases hb <;> norm_num

theorem getBrackets_thresholds_nonneg (s : String) : ∀ b ∈ getBrackets s, 0 ≤ b.1 := by
  unfold getBrackets
  split <;> intro b hb <;> fin_cases hb <;> norm_num

theorem standardDeduction_lower (s : String) : (14600 : ℚ) ≤ standardDeduction s := by
  unfold standardDeduction
  split
  · exact le_refl _
  · split
    · norm_num
    · exact le_refl _

/-- Unfolding of the `total_tax` field of `compute_taxes`. -/
theorem compute_taxes_total_tax (ti : TaxInput) :
    (compute_taxes ti).total_tax =
      applyOrdinaryBrackets
          (max 0 (ti.ordinary_income - standardDeduction (normalizeFilingStatus ti.filing_status)))
          (getBrackets (normalizeFilingStatus ti.filing_status))
        + max 0 ti.capital_gains_income * (15/100)
        + max 0 (ti.ordinary_income + ti.capital_gains_income) * max 0 ti.state_rate := rfl

/-- Unfolding of the `effective_rate` field of `compute_taxes`. -/
theorem compute_taxes_effective_rate (ti : TaxInput) :
    (compute_taxes ti).effective_rate =
      if 0 < ti.ordinary_income + ti.capital_gains_income
      then (compute_taxes ti).total_tax / (ti.ordinary_income + ti.capital_gains_income)
      else 0 := rfl

/-- Unfolding of the `federal_tax` field of `compute_taxes`. -/
theorem compute_taxes_federal_tax (ti : TaxInput) :
    (compute_taxes ti).federal_tax =
      applyOrdinaryBrackets
          (max 0 (ti.ordinary_income - standardDeduction (normalizeFilingStatus ti.filing_status)))
          (getBrackets (normalizeFilingStatus ti.filing_status))
        + federalCapitalTax ti := rfl

/-! ## Helper lemmas: year projector -/

theorem dataclassCallOk_taxInput_false :
    dataclassCallOk TaxInput.fieldNames taxInputCallKeywords = false := by decide

/-- In a retirement year, `yearStep` reproduces the `TypeError` raised by
the `TaxInput` construction (calculations.py lines 104–110). -/
theorem yearStep_retirement_error (config : ProjectionConfig) (age : ℤ) (b4 bb : ℚ)
    (h : config.retire_age ≤ age) :
    yearStep config age b4 bb =
      .error "TypeError: TaxInput.__init__ got an unexpected keyword argument social_security_income" := by
  simp [yearStep, h, dataclassCallOk_taxInput_false]

/-- In a pre-retirement year, `yearStep` emits the growth-only record with
all withdrawal, Social-Security and tax fields zero. -/
theorem yearStep_accumulation (config : ProjectionConfig) (age : ℤ) (b4 bb : ℚ)
    (h : age < config.retire_age) :
    yearStep config age b4 bb = Except.ok
      ({ age := age
         year_index := age - config.current_age
         is_retirement_year := false
         balance_401k := (b4 + config.annual_401k_contribution) * (1 + config.real_return_401k)
         balance_brokerage :=
           (bb + config.annual_brokerage_contribution) * (1 + config.real_return_brokerage)
         total_balance := (b4 + config.annual_401k_contribution) * (1 + config.real_return_401k)
           + (bb + config.annual_brokerage_contribution) * (1 + config.real_return_brokerage)
         withdrawal_total := 0
         withdrawal_401k := 0
         withdrawal_brokerage := 0
         social_security_income := 0
         tax_total := 0
         net_income_after_tax := 0
         tax_effective_rate := 0
         federal_tax := 0
         state_tax := 0 },
       (b4 + config.annual_401k_contribution) * (1 + config.real_return_401k),
       (bb + config.annual_brokerage_contribution) * (1 + config.real_return_brokerage)) := by
  have hnot : ¬ config.retire_age ≤ age := not_le.mpr h
  simp [yearStep, yearCalc, hnot]

/-- In a retirement year, `yearCalc` applies growth without contribution,
withdraws `swr` of the grown total, and splits the draw by
`withdrawalSplit`. -/
theorem yearCalc_retirement (config : ProjectionConfig) (age : ℤ) (b4 bb : ℚ)
    (hret : config.retire_age ≤ age) :
    yearCalc config age b4 bb =
      { post_growth_401k := b4 * (1 + config.real_return_401k)
        post_growth_brokerage := bb * (1 + config.real_return_brokerage)
        withdrawal_total := (b4 * (1 + config.real_return_401k)
          + bb * (1 + config.real_return_brokerage)) * config.swr
        withdrawal_401k := (withdrawalSplit config.withdrawal_order
          ((b4 * (1 + config.real_return_401k) + bb * (1 + config.real_return_brokerage))
            * config.swr)
          (b4 * (1 + config.real_return_401k)) (bb * (1 + config.real_return_brokerage))).1
        withdrawal_brokerage := (withdrawalSplit config.withdrawal_order
          ((b4 * (1 + config.real_return_401k) + bb * (1 + config.real_return_brokerage))
            * config.swr)
          (b4 * (1 + config.real_return_401k)) (bb * (1 + config.real_return_brokerage))).2
        social_security_income :=
          if 62 ≤ age then
            SOCIAL_SECURITY_MAX_AGE_62 * (1 + SOCIAL_SECURITY_COLA) ^ (age - 62).toNat
          else 0
        new_balance_401k := b4 * (1 + config.real_return_401k)
          - (withdrawalSplit config.withdrawal_order
              ((b4 * (1 + config.real_return_401k) + bb * (1 + config.real_return_brokerage))
                * config.swr)
              (b4 * (1 + config.real_return_401k)) (bb * (1 + config.real_return_brokerage))).1
        new_balance_brokerage := bb * (1 + config.real_return_brokerage)
          - (withdrawalSplit config.withdrawal_order
              ((b4 * (1 + config.real_return_401k) + bb * (1 + config.real_return_brokerage))
                * config.swr)
              (b4 * (1 + config.real_return_401k)) (bb * (1 + config.real_return_brokerage))).2 } := by
  simp [yearCalc, hret]

theorem withdrawalSplit_brokerage_fst (total p4 pb : ℚ) :
    (withdrawalSplit WithdrawalOrder.brokerage_first total p4 pb).1
      = total - min total pb := rfl

theorem withdrawalSplit_brokerage_snd (total p4 pb : ℚ) :
    (withdrawalSplit WithdrawalOrder.brokerage_first total p4 pb).2
      = min total pb := rfl

theorem withdrawalSplit_taxDeferred_fst (total p4 pb : ℚ) :
    (withdrawalSplit WithdrawalOrder.tax_deferred_first total p4 pb).1
      = min total p4 := rfl

theorem withdrawalSplit_taxDeferred_snd (total p4 pb : ℚ) :
    (withdrawalSplit WithdrawalOrder.tax_deferred_first total p4 pb).2
      = total - min total p4 := rfl

/-- Function `withdrawalSplit` caps each draw by availability: the two components
are non-negative, sum to the total, and never exceed the respective
post-growth balances, provided `0 ≤ total ≤ p4 + pb`. -/
theorem withdrawalSplit_bounds (order : WithdrawalOrder) (total p4 pb : ℚ)
    (h4 : 0 ≤ p4) (hb : 0 ≤ pb) (ht0 : 0 ≤ total) (ht : total ≤ p4 + pb) :
    0 ≤ (withdrawalSplit order total p4 pb).1 ∧
    0 ≤ (withdrawalSplit order total p4 pb).2 ∧
    (withdrawalSplit order total p4 pb).1 + (withdrawalSplit order total p4 pb).2 = total ∧
    (withdrawalSplit order total p4 pb).1 ≤ p4 ∧
    (withdrawalSplit order total p4 pb).2 ≤ pb := by
  cases order with
  | brokerage_first =>
      simp only [withdrawalSplit]
      rcases le_total total pb with hc | hc
      · rw [min_eq_left hc]
        refine ⟨by linarith, ht0, by ring, by linarith, hc⟩
      · rw [min_eq_right hc]
        refine ⟨by linarith, hb, by ring, by linarith, le_refl pb⟩
  | tax_deferred_first =>
      simp only [withdrawalSplit]
      rcases le_total total p4 with hc | hc
      · rw [min_eq_left hc]
        refine ⟨ht0, by linarith, by ring, hc, by linarith⟩
      · rw [min_eq_right hc]
        refine ⟨h4, by linarith, by ring, le_refl p4, by linarith⟩

/-- Per-year non-negativity: starting from non-negative balances, the
amounts drawn are capped by the post-growth balances and the updated
balances stay non-negative. -/
theorem yearCalc_caps (config : ProjectionConfig) (age : ℤ) (b4 bb : ℚ)
    (h4 : 0 ≤ b4) (hb : 0 ≤ bb)
    (hc4 : 0 ≤ config.annual_401k_contribution)
    (hcb : 0 ≤ config.annual_brokerage_contribution)
    (hr4 : -1 ≤ config.real_return_401k) (hrb : -1 ≤ config.real_return_brokerage)
    (hs0 : 0 ≤ config.swr) (hs1 : config.swr ≤ 1) :
    (yearCalc config age b4 bb).withdrawal_401k ≤ (yearCalc config age b4 bb).post_growth_401k ∧
    (yearCalc config age b4 bb).withdrawal_brokerage
      ≤ (yearCalc config age b4 bb).post_growth_brokerage ∧
    0 ≤ (yearCalc config age b4 bb).new_balance_401k ∧
    0 ≤ (yearCalc config age b4 bb).new_balance_brokerage := by
  by_cases hret : config.retire_age ≤ age
  · rw [yearCalc_retirement config age b4 bb hret]
    have hp4 : 0 ≤ b4 * (1 + config.real_return_401k) := mul_nonneg h4 (by linarith)
    have hpb : 0 ≤ bb * (1 + config.real_return_brokerage) := mul_nonneg hb (by linarith)
    have ht0 : 0 ≤ (b4 * (1 + config.real_return_401k)
        + bb * (1 + config.real_return_brokerage)) * config.swr :=
      mul_nonneg (add_nonneg hp4 hpb) hs0
    have ht : (b4 * (1 + config.real_return_401k)
        + bb * (1 + config.real_return_brokerage)) * config.swr
        ≤ b4 * (1 + config.real_return_401k) + bb * (1 + config.real_return_brokerage) :=
      mul_le_of_le_one_right (add_nonneg hp4 hpb) hs1
    obtain ⟨w1, w2, _, w4, w5⟩ := withdrawalSplit_bounds config.withdrawal_order _ _ _
      hp4 hpb ht0 ht
    exact ⟨w4, w5, by simpa using sub_nonneg.mpr w4, by simpa using sub_nonneg.mpr w5⟩
  · have hp4 : 0 ≤ (b4 + config.annual_401k_contribution) * (1 + config.real_return_401k) :=
      mul_nonneg (add_nonneg h4 hc4) (by linarith)
    have hpb : 0 ≤ (bb + config.annual_brokerage_contribution)
        * (1 + config.real_return_brokerage) :=
      mul_nonneg (add_nonneg hb hcb) (by linarith)
    simp [yearCalc, hret, hp4, hpb]

/-- Every row of a successful run carries non-negative balances, and the
running balances stay non-negative. -/
theorem runProjectionAux_balances_nonneg (config : ProjectionConfig)
    (hc4 : 0 ≤ config.annual_401k_contribution)
    (hcb : 0 ≤ config.annual_brokerage_contribution)
    (hr4 : -1 ≤ config.real_return_401k) (hrb : -1 ≤ config.real_return_brokerage) :
    ∀ (ages : List ℤ) (b4 bb : ℚ), 0 ≤ b4 → 0 ≤ bb →
      ∀ rows, runProjectionAux config ages b4 bb = .ok rows →
        ∀ row ∈ rows, 0 ≤ row.balance_401k ∧ 0 ≤ row.balance_brokerage := by
  intro ages
  induction ages with
  | nil =>
      intro b4 bb _ _ rows h row hrow
      simp only [runProjectionAux, Except.ok.injEq] at h
      subst h
      simp at hrow
  | cons age rest ih =>
      intro b4 bb h4 hb rows h row hrow
      by_cases hret : config.retire_age ≤ age
      · rw [runProjectionAux, yearStep_retirement_error config age b4 bb hret] at h
        exact absurd h (by simp)
      · rw [runProjectionAux, yearStep_accumulation config age b4 bb (not_le.mp hret)] at h
        dsimp only at h
        have hp4 : 0 ≤ (b4 + config.annual_401k_contribution) * (1 + config.real_return_401k) :=
          mul_nonneg (add_nonneg h4 hc4) (by linarith)
        have hpb : 0 ≤ (bb + config.annual_brokerage_contribution)
            * (1 + config.real_return_brokerage) :=
          mul_nonneg (add_nonneg hb hcb) (by linarith)
        rcases hrec : runProjectionAux config rest
            ((b4 + config.annual_401k_contribution) * (1 + config.real_return_401k))
            ((bb + config.annual_brokerage_contribution) * (1 + config.real_return_brokerage))
          with e | rows'
        · rw [hrec] at h
          exact absurd h (by simp)
        · rw [hrec] at h
          simp only [Except.ok.injEq] at h
          subst h
          rcases List.mem_cons.mp hrow with hhead | htail
          · subst hhead
            exact ⟨hp4, hpb⟩
          · exact ih _ _ hp4 hpb _ hrec row htail

/-- When every simulated age is pre-retirement, the loop succeeds and
emits one row per age, in order, with `year_index = age − current_age`. -/
theorem runProjectionAux_ages (config : ProjectionConfig) :
    ∀ (ages : List ℤ) (b4 bb : ℚ), (∀ a ∈ ages, a < config.retire_age) →
      ∃ rows, runProjectionAux config ages b4 bb = .ok rows ∧
        rows.map (fun r => r.age) = ages ∧
        rows.map (fun r => r.year_index) = ages.map (fun a => a - config.current_age) := by
  intro ages
  induction ages with
  | nil => intro b4 bb _; exact ⟨[], rfl, rfl, rfl⟩
  | cons age rest ih =>
      intro b4 bb hall
      obtain ⟨rows', h1, h2, h3⟩ := ih
        ((b4 + config.annual_401k_contribution) * (1 + config.real_return_401k))
        ((bb + config.annual_brokerage_contribution) * (1 + config.real_return_brokerage))
        (fun a ha => hall a (List.mem_cons_of_mem _ ha))
      refine ⟨{ age := age
                year_index := age - config.current_age
                is_retirement_year := false
                balance_401k :=
                  (b4 + config.annual_401k_contribution) * (1 + config.real_return_401k)
                balance_brokerage :=
                  (bb + config.annual_brokerage_contribution) * (1 + config.real_return_brokerage)
                total_balance :=
                  (b4 + config.annual_401k_contribution) * (1 + config.real_return_401k)
                    + (bb + config.annual_brokerage_contribution)
                        * (1 + config.real_return_brokerage)
                withdrawal_total := 0
                withdrawal_401k := 0
                withdrawal_brokerage := 0
                social_security_income := 0
                tax_total := 0
                net_income_after_tax := 0
                tax_effective_rate := 0
                federal_tax := 0
                state_tax := 0 } :: rows', ?_, ?_, ?_⟩
      · rw [runProjectionAux,
          yearStep_accumulation config age b4 bb (hall age (List.mem_cons_self _ _))]
        dsimp only
        rw [h1]
      · simp [h2]
      · simp [h3]

/-- Had no retirement year occurred in the range (so that the `TypeError`
of `yearStep_retirement_error` is never reached), the run would return
exactly `(end_age + 1 − current_age).toNat` rows, one per age in order. -/
theorem run_projection_count_no_retirement (config : ProjectionConfig)
    (h : config.end_age < config.retire_age) :
    ∃ rows, run_projection config = .ok rows ∧
      rows.map (fun r => r.age) = yearSequence config ∧
      rows.length = (config.end_age + 1 - config.current_age).toNat := by
  have hall : ∀ a ∈ yearSequence config, a < config.retire_age := by
    intro a ha
    rcases List.mem_map.mp ha with ⟨i, hi, rfl⟩
    have hi2 : i < (config.end_age + 1 - config.current_age).toNat := List.mem_range.mp hi
    omega
  obtain ⟨rows, h1, h2, h3⟩ := runProjectionAux_ages config (yearSequence config)
    config.current_401k_balance config.current_brokerage_balance hall
  refine ⟨rows, h1, h2, ?_⟩
  have hlen := congrArg List.length h2
  rw [List.length_map] at hlen
  rw [hlen]
  unfold yearSequence
  rw [List.length_map, List.length_range]

/-! ## Claims -/

/-- C1: the spec says `run_projection` has no failure modes for a
well-formed config and that the per-year `TaxInput` snapshot (including its
optional `social_security_income` field) is constructed successfully; in
the code the `TaxInput` dataclass declares no `social_security_income`
field, so the construction at calculations.py lines 104–110 raises
`TypeError` on the first retirement year and no records are returned. -/
theorem claim_projection_completes :
    cfgRetire65.current_age ≤ cfgRetire65.retire_age ∧
    cfgRetire65.retire_age ≤ cfgRetire65.end_age ∧
    run_projection cfgRetire65 =
      .error "TypeError: TaxInput.__init__ got an unexpected keyword argument social_security_income" := by
  refine ⟨by norm_num [cfgRetire65], by norm_num [cfgRetire65], ?_⟩
  simp +decide [run_projection, cfgRetire65, yearSequence, runProjectionAux, yearStep,
    dataclassCallOk_taxInput_false, List.range_succ]

/-- C2: the spec says a config with `current_age ≤ end_age` yields exactly
`end_age − current_age + 1` records; for this well-formed single-year
config the code instead raises the `TypeError` of claim C1 and returns no
record list at all. -/
theorem claim_record_count :
    cfgRetire70.current_age ≤ cfgRetire70.end_age ∧
    run_projection cfgRetire70 =
      .error "TypeError: TaxInput.__init__ got an unexpected keyword argument social_security_income" := by
  refine ⟨by norm_num [cfgRetire70], ?_⟩
  simp +decide [run_projection, cfgRetire70, yearSequence, runProjectionAux, yearStep,
    dataclassCallOk_taxInput_false, List.range_succ]

/-- C3: in every retirement year, `withdrawal_total` is `swr` times the
post-growth total; under `brokerage_first` the brokerage draw is
`min(withdrawal_total, post_growth_brokerage)`, under `tax_deferred_first`
the 401k draw is `min(withdrawal_total, post_growth_401k)`; the two draws
are non-negative and sum exactly to `withdrawal_total`. -/
theorem claim_withdrawal_order_law (config : ProjectionConfig) (age : ℤ) (b4 bb : ℚ)
    (hret : config.retire_age ≤ age) (h4 : 0 ≤ b4) (hb : 0 ≤ bb)
    (hr4 : -1 ≤ config.real_return_401k) (hrb : -1 ≤ config.real_return_brokerage)
    (hswr : 0 ≤ config.swr) :
    (yearCalc config age b4 bb).withdrawal_total
        = ((yearCalc config age b4 bb).post_growth_401k
            + (yearCalc config age b4 bb).post_growth_brokerage) * config.swr ∧
    (config.withdrawal_order = WithdrawalOrder.brokerage_first →
      (yearCalc config age b4 bb).withdrawal_brokerage
        = min (yearCalc config age b4 bb).withdrawal_total
            (yearCalc config age b4 bb).post_growth_brokerage) ∧
    (config.withdrawal_order = WithdrawalOrder.tax_deferred_first →
      (yearCalc config age b4 bb).withdrawal_401k
        = min (yearCalc config age b4 bb).withdrawal_total
            (yearCalc config age b4 bb).post_growth_401k) ∧
    (yearCalc config age b4 bb).withdrawal_401k
        + (yearCalc config age b4 bb).withdrawal_brokerage
        = (yearCalc config age b4 bb).withdrawal_total ∧
    0 ≤ (yearCalc config age b4 bb).withdrawal_401k ∧
    0 ≤ (yearCalc config age b4 bb).withdrawal_brokerage := by
  rw [yearCalc_retirement config age b4 bb hret]
  dsimp only
  have hp4 : 0 ≤ b4 * (1 + config.real_return_401k) := mul_nonneg h4 (by linarith)
  have hpb : 0 ≤ bb * (1 + config.real_return_brokerage) := mul_nonneg hb (by linarith)
  have ht0 : 0 ≤ (b4 * (1 + config.real_return_401k)
      + bb * (1 + config.real_return_brokerage)) * config.swr :=
    mul_nonneg (add_nonneg hp4 hpb) hswr
  cases horder : config.withdrawal_order with
  | brokerage_first =>
      rw [withdrawalSplit_brokerage_fst, withdrawalSplit_brokerage_snd]
      refine ⟨rfl, fun _ => rfl, ?_, by ring, ?_, ?_⟩
      · intro hx
        exact WithdrawalOrder.noConfusion hx
      · exact sub_nonneg.mpr (min_le_left _ _)
      · exact le_min ht0 hpb
  | tax_deferred_first =>
      rw [withdrawalSplit_taxDeferred_fst, withdrawalSplit_taxDeferred_snd]
      refine ⟨rfl, ?_, fun _ => rfl, by ring, ?_, ?_⟩
      · intro hx
        exact WithdrawalOrder.noConfusion hx
      · exact le_min ht0 hp4
      · exact sub_nonneg.mpr (min_le_left _ _)

theorem claim_withdrawal_order_law_witness :
    (yearCalc cfgRetire70 70 (500000:ℚ) 250000).withdrawal_401k
        + (yearCalc cfgRetire70 70 (500000:ℚ) 250000).withdrawal_brokerage
      = (yearCalc cfgRetire70 70 (500000:ℚ) 250000).withdrawal_total ∧
    0 ≤ (yearCalc cfgRetire70 70 (500000:ℚ) 250000).withdrawal_401k := by
  have h := claim_withdrawal_order_law cfgRetire70 70 500000 250000
    (by norm_num [cfgRetire70]) (by norm_num) (by norm_num)
    (by norm_num [cfgRetire70]) (by norm_num [cfgRetire70]) (by norm_num [cfgRetire70])
  exact ⟨h.2.2.2.1, h.2.2.2.2.1⟩

/-- C4: with non-negative starting balances and contributions, real
returns ≥ −1, and `swr ∈ [0, 1]`: every row of a successful run carries
non-negative balances, and in every simulated year the amount drawn from
each account is capped by that account's post-growth balance, leaving the
updated balances non-negative. -/
theorem claim_balances_nonneg (config : ProjectionConfig)
    (h0a : 0 ≤ config.current_401k_balance) (h0b : 0 ≤ config.current_brokerage_balance)
    (hc4 : 0 ≤ config.annual_401k_contribution)
    (hcb : 0 ≤ config.annual_brokerage_contribution)
    (hr4 : -1 ≤ config.real_return_401k) (hrb : -1 ≤ config.real_return_brokerage)
    (hs0 : 0 ≤ config.swr) (hs1 : config.swr ≤ 1) :
    (∀ rows, run_projection config = .ok rows →
      ∀ row ∈ rows, 0 ≤ row.balance_401k ∧ 0 ≤ row.balance_brokerage) ∧
    (∀ (age : ℤ) (b4 bb : ℚ), 0 ≤ b4 → 0 ≤ bb →
      (yearCalc config age b4 bb).withdrawal_401k
          ≤ (yearCalc config age b4 bb).post_growth_401k ∧
      (yearCalc config age b4 bb).withdrawal_brokerage
          ≤ (yearCalc config age b4 bb).post_growth_brokerage ∧
      0 ≤ (yearCalc config age b4 bb).new_balance_401k ∧
      0 ≤ (yearCalc config age b4 bb).new_balance_brokerage) :=
  ⟨fun rows h => runProjectionAux_balances_nonneg config hc4 hcb hr4 hrb
      (yearSequence config) _ _ h0a h0b rows h,
   fun age b4 bb h4 hb => yearCalc_caps config age b4 bb h4 hb hc4 hcb hr4 hrb hs0 hs1⟩

theorem claim_balances_nonneg_witness :
    0 ≤ (yearCalc cfgRetire70 70 (500000:ℚ) 250000).new_balance_401k ∧
    0 ≤ (yearCalc cfgRetire70 70 (500000:ℚ) 250000).new_balance_brokerage := by
  have h := (claim_balances_nonneg cfgRetire70
    (by norm_num [cfgRetire70]) (by norm_num [cfgRetire70]) (by norm_num [cfgRetire70])
    (by norm_num [cfgRetire70]) (by norm_num [cfgRetire70]) (by norm_num [cfgRetire70])
    (by norm_num [cfgRetire70]) (by norm_num [cfgRetire70])).2
    70 500000 250000 (by norm_num) (by norm_num)
  exact ⟨h.2.2.1, h.2.2.2⟩

/-- C5: the bracket routine realises the spec's marginal-bracket formula
(for both filing-status tables), the standard deduction is subtracted
before bracket application, and on the concrete single-filer example with
ordinary income 60000 the tax is exactly 5216 with effective rate
5216/60000. -/
theorem claim_bracket_semantics :
    (∀ t : ℚ, applyOrdinaryBrackets t FEDERAL_BRACKETS_SINGLE
        = specBracketSum t FEDERAL_BRACKETS_SINGLE) ∧
    (∀ t : ℚ, applyOrdinaryBrackets t FEDERAL_BRACKETS_MARRIED
        = specBracketSum t FEDERAL_BRACKETS_MARRIED) ∧
    (compute_taxes tiExample60000).ordinary_income_taxed = 45400 ∧
    (compute_taxes tiExample60000).total_tax = 5216 ∧
    (compute_taxes tiExample60000).effective_rate = 5216 / 60000 := by
  refine ⟨?_, ?_, ?_, ?_, ?_⟩
  · exact applyOrdinaryBrackets_eq_spec FEDERAL_BRACKETS_SINGLE
      (by intro b hb; fin_cases hb <;> norm_num)
  · exact applyOrdinaryBrackets_eq_spec FEDERAL_BRACKETS_MARRIED
      (by intro b hb; fin_cases hb <;> norm_num)
  · norm_num [tiExample60000, compute_taxes, normalizeFilingStatus, standardDeduction]
  · norm_num [tiExample60000, compute_taxes, normalizeFilingStatus, getBrackets,
      standardDeduction, applyOrdinaryBrackets, applyBracketsAux, bracketAmount,
      FEDERAL_BRACKETS_SINGLE]
  · norm_num [tiExample60000, compute_taxes, normalizeFilingStatus, getBrackets,
      standardDeduction, applyOrdinaryBrackets, applyBracketsAux, bracketAmount,
      FEDERAL_BRACKETS_SINGLE]

/-- C6 counterexample: a tax input whose total income is zero (a capital
loss exactly offsetting ordinary income above the standard deduction)
yields `total_tax = 540 ≠ 0`, refuting `total_income ≤ 0 → total_tax = 0`. -/
theorem claim_nonpositive_income_counterexample :
    tiLossOffset.ordinary_income + tiLossOffset.capital_gains_income ≤ 0 ∧
    (compute_taxes tiLossOffset).total_tax = 540 ∧
    (compute_taxes tiLossOffset).total_tax ≠ 0 := by
  refine ⟨by norm_num [tiLossOffset], ?_, ?_⟩ <;>
    norm_num [tiLossOffset, compute_taxes, normalizeFilingStatus, getBrackets,
      standardDeduction, applyOrdinaryBrackets, applyBracketsAux, bracketAmount,
      FEDERAL_BRACKETS_SINGLE]

/-- C6 (amended): for total income ≤ 0 the effective rate is 0; the total
tax is additionally 0 provided the ordinary income does not exceed the
standard deduction and the capital-gains income is non-positive. -/
theorem claim_nonpositive_income (ti : TaxInput)
    (h : ti.ordinary_income + ti.capital_gains_income ≤ 0) :
    (compute_taxes ti).effective_rate = 0 ∧
    (ti.ordinary_income ≤ 14600 → ti.capital_gains_income ≤ 0 →
      (compute_taxes ti).total_tax = 0) := by
  constructor
  · rw [compute_taxes_effective_rate, if_neg (not_lt.mpr h)]
  · intro hoi hcg
    rw [compute_taxes_total_tax]
    have hd : ti.ordinary_income - standardDeduction (normalizeFilingStatus ti.filing_status) ≤ 0 := by
      have := standardDeduction_lower (normalizeFilingStatus ti.filing_status)
      linarith
    rw [max_eq_left hd, max_eq_left hcg, max_eq_left h]
    simp [applyOrdinaryBrackets]

theorem claim_nonpositive_income_witness :
    ((⟨"single", 5/100, 1000, -2000⟩ : TaxInput).ordinary_income
        + (⟨"single", 5/100, 1000, -2000⟩ : TaxInput).capital_gains_income ≤ 0) ∧
    (compute_taxes ⟨"single", 5/100, 1000, -2000⟩).effective_rate = 0 ∧
    (compute_taxes ⟨"single", 5/100, 1000, -2000⟩).total_tax = 0 := by
  have h := claim_nonpositive_income ⟨"single", 5/100, 1000, -2000⟩ (by norm_num)
  exact ⟨by norm_num, h.1, h.2 (by norm_num) (by norm_num)⟩

/-- C7: a pre-retirement year emits a record whose withdrawal,
Social-Security, tax and net-income fields are all zero and whose balances
are the previous balances plus the annual contributions, grown by
`(1 + real_return)` per account. -/
theorem claim_accumulation_year (config : ProjectionConfig) (age : ℤ) (b4 bb : ℚ)
    (h : age < config.retire_age) :
    ∃ row nb4 nbb, yearStep config age b4 bb = Except.ok (row, nb4, nbb) ∧
      row.withdrawal_total = 0 ∧ row.withdrawal_401k = 0 ∧ row.withdrawal_brokerage = 0 ∧
      row.social_security_income = 0 ∧ row.tax_total = 0 ∧ row.net_income_after_tax = 0 ∧
      row.balance_401k = (b4 + config.annual_401k_contribution) * (1 + config.real_return_401k) ∧
      row.balance_brokerage
        = (bb + config.annual_brokerage_contribution) * (1 + config.real_return_brokerage) ∧
      nb4 = row.balance_401k ∧ nbb = row.balance_brokerage :=
  ⟨_, _, _, yearStep_accumulation config age b4 bb h,
    rfl, rfl, rfl, rfl, rfl, rfl, rfl, rfl, rfl, rfl⟩

theorem claim_accumulation_year_witness :
    ((30:ℤ) < cfgAccumulate.retire_age) ∧
    ∃ row nb4 nbb, yearStep cfgAccumulate 30 (1000:ℚ) 500 = Except.ok (row, nb4, nbb) ∧
      row.withdrawal_total = 0 ∧ row.withdrawal_401k = 0 ∧ row.withdrawal_brokerage = 0 ∧
      row.social_security_income = 0 ∧ row.tax_total = 0 ∧ row.net_income_after_tax = 0 ∧
      row.balance_401k
        = ((1000:ℚ) + cfgAccumulate.annual_401k_contribution)
            * (1 + cfgAccumulate.real_return_401k) ∧
      row.balance_brokerage
        = ((500:ℚ) + cfgAccumulate.annual_brokerage_contribution)
            * (1 + cfgAccumulate.real_return_brokerage) ∧
      nb4 = row.balance_401k ∧ nbb = row.balance_brokerage :=
  ⟨by norm_num [cfgAccumulate],
    claim_accumulation_year cfgAccumulate 30 1000 500 (by norm_num [cfgAccumulate])⟩

/-- C8: in every simulated year, `social_security_income` equals
`41000 × 1.025^(age − 62)` exactly when the year is a retirement year with
age ≥ 62, and 0 otherwise; no configured start-age field enters the
computation (the code's `ProjectionConfig` declares none). -/
theorem claim_social_security_rule (config : ProjectionConfig) (age : ℤ) (b4 bb : ℚ) :
    (config.retire_age ≤ age ∧ 62 ≤ age →
      (yearCalc config age b4 bb).social_security_income
        = 41000 * (1 + 25/1000 : ℚ) ^ (age - 62).toNat) ∧
    (¬(config.retire_age ≤ age ∧ 62 ≤ age) →
      (yearCalc config age b4 bb).social_security_income = 0) := by
  constructor
  · rintro ⟨h1, h2⟩
    simp [yearCalc, h1, h2, SOCIAL_SECURITY_MAX_AGE_62, SOCIAL_SECURITY_COLA]
  · intro h
    by_cases h1 : config.retire_age ≤ age
    · have h2 : ¬ (62:ℤ) ≤ age := fun h2 => h ⟨h1, h2⟩
      simp [yearCalc, h1, h2]
    · simp [yearCalc, h1]

theorem claim_social_security_rule_witness :
    (cfgRetire65.retire_age ≤ (65:ℤ) ∧ (62:ℤ) ≤ 65) ∧
    (yearCalc cfgRetire65 65 (100000:ℚ) 0).social_security_income
      = 41000 * (1 + 25/1000 : ℚ) ^ ((65:ℤ) - 62).toNat :=
  ⟨⟨by norm_num [cfgRetire65], by norm_num⟩,
    (claim_social_security_rule cfgRetire65 65 100000 0).1
      ⟨by norm_num [cfgRetire65], by norm_num⟩⟩

/-- C9: `compute_taxes` is monotone in ordinary income: holding filing
status, state rate and capital-gains income fixed, a larger ordinary
income never yields a smaller total tax. -/
theorem claim_tax_monotone_ordinary (ti1 ti2 : TaxInput)
    (hfs : ti1.filing_status = ti2.filing_status)
    (hsr : ti1.state_rate = ti2.state_rate)
    (hcg : ti1.capital_gains_income = ti2.capital_gains_income)
    (hoi : ti1.ordinary_income ≤ ti2.ordinary_income) :
    (compute_taxes ti1).total_tax ≤ (compute_taxes ti2).total_tax := by
  rw [compute_taxes_total_tax, compute_taxes_total_tax, hfs, hsr, hcg]
  refine add_le_add (add_le_add ?_ le_rfl) ?_
  · exact applyOrdinaryBrackets_mono _ (getBrackets_rates_nonneg _)
      (max_le_max le_rfl (sub_le_sub_right hoi _))
  · exact mul_le_mul_of_nonneg_right (max_le_max le_rfl (add_le_add_right hoi _))
      (le_max_left _ _)

theorem claim_tax_monotone_ordinary_witness :
    (compute_taxes ⟨"married", 1/20, 30000, 1000⟩).total_tax
      ≤ (compute_taxes ⟨"married", 1/20, 50000, 1000⟩).total_tax :=
  claim_tax_monotone_ordinary _ _ rfl rfl rfl (by norm_num)

/-- C10: `capital_gains_taxed` always echoes the raw input
`capital_gains_income` (even when negative), while the federal
capital-gains component is computed on `max(0, capital_gains_income)`;
concretely, for a −100 capital-gains input the reported
`capital_gains_taxed` is −100 while the federal tax is 0. -/
theorem claim_capital_gains_taxed_echo :
    (∀ ti : TaxInput, (compute_taxes ti).capital_gains_taxed = ti.capital_gains_income) ∧
    (∀ ti : TaxInput, (compute_taxes ti).federal_tax =
      applyOrdinaryBrackets
          (max 0 (ti.ordinary_income - standardDeduction (normalizeFilingStatus ti.filing_status)))
          (getBrackets (normalizeFilingStatus ti.filing_status)) + federalCapitalTax ti) ∧
    (compute_taxes ⟨"single", 1/10, 0, -100⟩).capital_gains_taxed = -100 ∧
    federalCapitalTax ⟨"single", 1/10, 0, -100⟩ = 0 ∧
    (compute_taxes ⟨"single", 1/10, 0, -100⟩).federal_tax = 0 := by
  refine ⟨fun ti => rfl, fun ti => compute_taxes_federal_tax ti, rfl, ?_, ?_⟩
  · show max (0:ℚ) (-100) * (15/100) = 0
    rw [max_eq_left (by norm_num : (-100:ℚ) ≤ 0)]
    ring
  · rw [compute_taxes_federal_tax]
    show applyOrdinaryBrackets (max 0 ((0:ℚ) - standardDeduction (normalizeFilingStatus "single")))
        (getBrackets (normalizeFilingStatus "single"))
        + max (0:ℚ) (-100) * (15/100) = 0
    rw [max_eq_left (by norm_num : (-100:ℚ) ≤ 0)]
    rw [max_eq_left (by norm_num [normalizeFilingStatus, standardDeduction] :
      (0:ℚ) - standardDeduction (normalizeFilingStatus "single") ≤ 0)]
    simp [applyOrdinaryBrackets]

end RetirementPlanner
